import Mathlib

/-!
Verification of the Viu extractor module (`youtube_dl/extractor/viu.py`).

The Python code is shallowly embedded: JSON values become the inductive
`JVal`, Python dicts become ordered association lists, fallible code
(exceptions) returns `Except PyErr`, and the out-of-scope collaborators
(HTTP fetching, HLS/DASH manifest parsing, format sorting) are passed in
as parameters or modelled from the specification where noted.
-/

namespace Viu

/-- A JSON value as produced by the site APIs and consumed by the
extractors.  Python dicts preserve insertion order, so an object is an
ordered association list (JSON objects have distinct keys). -/
inductive JVal where
  | null
  | bool (b : Bool)
  | int (n : Int)
  | str (s : String)
  | list (xs : List JVal)
  | dict (fields : List (String × JVal))

/-- A JSON object body (a Python dict holding JSON data). -/
abbrev Obj := List (String × JVal)

/-- Python truthiness of a JSON value (`bool(v)`). -/
def JVal.truthy : JVal → Bool
  | .null => false
  | .bool b => b
  | .int n => n != 0
  | .str s => !s.isEmpty
  | .list xs => !xs.isEmpty
  | .dict fs => !fs.isEmpty

/-- `d.get(k)`: first binding of `k`, `None` when absent. -/
def getk (o : Obj) (k : String) : Option JVal :=
  (o.find? (fun p => p.1 == k)).map (fun p => p.2)

/-- `d.get(k, default)`. -/
def getkD (o : Obj) (k : String) (d : JVal) : JVal :=
  (getk o k).getD d

/-- Truthiness of a `d.get(k)` result (Python `None` is falsy). -/
def truthyO : Option JVal → Bool
  | none => false
  | some v => v.truthy

/-- Python `a or b` on two `.get` results: the first operand when it is
truthy, the second otherwise. -/
def pyOr (a b : Option JVal) : Option JVal :=
  if truthyO a then a else b

/-- Python `str(v)` / `'%s' % v`.  Faithful for the scalar values the
extractor stringifies (ids, messages); container reprs are abbreviated
because no embedded code path stringifies a container. -/
def pyStr : JVal → String
  | .null => "None"
  | .bool true => "True"
  | .bool false => "False"
  | .int n => toString n
  | .str s => s
  | .list _ => "[...]"
  | .dict _ => "\x7b...\x7d"

/-- Python `s.upper()` (over the code points; the country codes in
scope are ASCII). -/
def pyUpper (s : String) : String := String.mk (s.toList.map Char.toUpper)

/-- Python `s.lower()` (over the code points; the language names in
scope are ASCII). -/
def pyLower (s : String) : String := String.mk (s.toList.map Char.toLower)

/-- ASCII whitespace as Python `str.strip`/`int` treat it. -/
def pySpace (c : Char) : Bool :=
  c == ' ' || c == '\t' || c == '\n' || c == '\r' || c == '\x0b' || c == '\x0c'

/-- Python `s.strip()` for a string: drop whitespace from both ends. -/
def pyStripStr (s : String) : String :=
  String.mk (((s.toList.dropWhile pySpace).reverse.dropWhile pySpace).reverse)

/-- Python `s.split(sep)` for a one-character separator, over the code
points (`''.split(',') == ['']`). -/
def splitOnChar (sep : Char) : List Char → List (List Char)
  | [] => [[]]
  | c :: rest =>
    let r := splitOnChar sep rest
    if c == sep then [] :: r
    else
      match r with
      | g :: gs => (c :: g) :: gs
      | [] => [[c]]

/-- Python `int(s)` for a string: optional surrounding whitespace, an
optional single sign, then a non-empty digit run; anything else raises
(modelled as `none`). -/
def pyInt? (s : String) : Option Int :=
  let digits : List Char → Option Nat := fun cs =>
    if cs.isEmpty || !cs.all Char.isDigit then none
    else some (cs.foldl (fun acc c => acc * 10 + (c.toNat - 48)) 0)
  match (pyStripStr s).toList with
  | '+' :: rest => (digits rest).map Int.ofNat
  | '-' :: rest => (digits rest).map (fun n => -(Int.ofNat n))
  | rest => (digits rest).map Int.ofNat

/-- Modelled from the spec: the shared numeric-coercion helper
`int_or_none` (the module imports it from the host utility layer, which
is outside the embedded source): integers pass through, booleans coerce
as in Python, numeric strings parse, and any other shape (absent,
malformed) yields `none`. -/
def int_or_none : JVal → Option Int
  | .int n => some n
  | .bool b => some (if b then 1 else 0)
  | .str s => pyInt? s
  | _ => none

/-- `int_or_none(d.get(k))`: absent field yields `none`. -/
def int_or_noneO (v : Option JVal) : Option Int :=
  int_or_none (v.getD .null)

/-- Exceptions the embedded code can raise.  `extractorError` is the
host's `ExtractorError` (`expected := true` marks a user-facing
failure — the spec's ApiError / DrmProtectedError / etc.); the other
constructors are unhandled Python exceptions. -/
inductive PyErr where
  | extractorError (msg : String) (expected : Bool)
  | keyError (k : String)
  | indexError
  | attributeError
  | typeError
deriving DecidableEq, Repr

/-- `v.get(k)` on an arbitrary value: only dicts have `.get`, anything
else raises `AttributeError`. -/
def jGet (v : JVal) (k : String) : Except PyErr (Option JVal) :=
  match v with
  | .dict o => .ok (getk o k)
  | _ => .error .attributeError

/-- `v.get(k, d)` on an arbitrary value. -/
def jGetD (v : JVal) (k : String) (d : JVal) : Except PyErr JVal :=
  (jGet v k).map (fun r => r.getD d)

/-- `v[k]` subscription by string key: `KeyError` when a dict lacks the
key, `TypeError` when the value is not subscriptable by a string. -/
def jIndexStr (v : JVal) (k : String) : Except PyErr JVal :=
  match v with
  | .dict o =>
    match getk o k with
    | some r => .ok r
    | none => .error (.keyError k)
  | _ => .error .typeError

/-- Coerce every element to a dict, raising `AttributeError` at the
first non-dict (the code calls `.get` on each element). -/
def asObjs : List JVal → Except PyErr (List Obj)
  | [] => .ok []
  | .dict o :: rest => (asObjs rest).map (fun os => o :: os)
  | _ :: _ => .error .attributeError

/-- Python `s.strip()` on a value: only strings have `.strip`. -/
def pyStrip (v : JVal) : Except PyErr String :=
  match v with
  | .str s => .ok (pyStripStr s)
  | _ => .error .attributeError

/-- One subtitle track as the extractors build it:
`{'url': ..., 'ext': ...}`. -/
structure SubTrack where
  url : JVal
  ext : String

/-- `dict.setdefault(k, []).append(t)`: append to the group of `k`,
creating the group at the end on first encounter. -/
def addToGroup {κ τ : Type} [BEq κ] : List (κ × List τ) → κ → τ → List (κ × List τ)
  | [], k, t => [(k, [t])]
  | (k', ts) :: rest, k, t =>
    if k' == k then (k', ts ++ [t]) :: rest
    else (k', ts) :: addToGroup rest k t

/-! ### `ViuBaseIE._call_api` (spec: SessionAuthClient.call_api) -/

/-- Is `d.get("status")` equal (Python `==`) to the string `"success"`?
Unequal types compare unequal in Python, so only the exact string
matches. -/
def isStatusSuccess : Option JVal → Bool
  | some (.str s) => s == "success"
  | _ => false

/-- `ViuBaseIE._call_api`, after the transport layer has produced the
unwrapped `response` object: a non-`"success"` status raises an
expected `ExtractorError` built from the site's own message
(`'%s said: %s' % (IE_NAME, response['message'])`); otherwise the
response object is returned unchanged.  Reading a missing `message`
field while building that error is itself a `KeyError`. -/
def call_api (ieName : String) (response : Obj) : Except PyErr Obj :=
  if !(isStatusSuccess (getk response "status")) then
    match getk response "message" with
    | some m => .error (.extractorError (ieName ++ " said: " ++ pyStr m) true)
    | none => .error (.keyError "message")
  else .ok response

/-! ### `ViuIE._real_extract` (spec: CatalogItemResolver) -/

/-- Match of `re.match(r'^subtitle_(?P<lang>[^_]+)_(?P<ext>(vtt|srt))', key)`
returning the `lang` and `ext` groups.  `re.match` anchors only at the
start: the language is the maximal non-underscore run after
`subtitle_`, followed by `_` and then `vtt` or `srt` (trailing
characters are permitted). -/
def subtitleKeyMatch (key : String) : Option (String × String) :=
  if "subtitle_".toList.isPrefixOf key.toList then
    let rest := (key.toList).drop 9
    let lang := rest.takeWhile (fun c => c != '_')
    let after := rest.drop lang.length
    if !lang.isEmpty && after.head? == some '_' then
      let tail := (after.drop 1)
      if tail.take 3 = "vtt".toList then some (String.mk lang, "vtt")
      else if tail.take 3 = "srt".toList then some (String.mk lang, "srt")
      else none
    else none
  else none

/-- One iteration of the subtitle-collection loop: a key matching the
subtitle pattern contributes `{'url': value, 'ext': ext}` to its
language's group via `setdefault(lang, []).append(...)`. -/
def subStep (acc : List (String × List SubTrack)) (kv : String × JVal) :
    List (String × List SubTrack) :=
  match subtitleKeyMatch kv.1 with
  | some le => addToGroup acc le.1 ⟨kv.2, le.2⟩
  | none => acc

/-- The subtitle-collection loop of `ViuIE._real_extract`: scan the
response fields in order. -/
def extractSubtitles (video_data : Obj) : List (String × List SubTrack) :=
  video_data.foldl subStep []

/-- Specification-side view of one language's subtitle tracks: the
matching fields of the response, in encounter order, restricted to one
language. -/
def subsOf (video_data : Obj) (lang : String) : List SubTrack :=
  video_data.filterMap
    (fun kv =>
      match subtitleKeyMatch kv.1 with
      | some le => if le.1 = lang then some (⟨kv.2, le.2⟩ : SubTrack) else none
      | none => none)

/-- Look a language up in the grouped subtitle mapping; an absent key
is the empty track list. -/
def subsAt (subs : List (String × List SubTrack)) (lang : String) : List SubTrack :=
  ((subs.find? (fun p => p.1 == lang)).map (fun p => p.2)).getD []

/-- The structured-manifest condition of `ViuIE._real_extract`: base
path (with fallback), directory and HLS filename all truthy. -/
def structCond (vd : Obj) : Bool :=
  truthyO (pyOr (getk vd "urlpathd") (getk vd "urlpath")) &&
    truthyO (getk vd "tdirforwhole") && truthyO (getk vd "jwhlsfile")

/-- The manifest-URL derivation of `ViuIE._real_extract`
(lines 99-112): when `urlpathd or urlpath`, `tdirforwhole` and
`jwhlsfile` are all truthy the URL is their `/`-joined concatenation,
otherwise the raw `href` field (a `KeyError` when that is absent). -/
def m3u8_url_of (video_data : Obj) : Except PyErr JVal :=
  let url_path := pyOr (getk video_data "urlpathd") (getk video_data "urlpath")
  let tdirforwhole := getk video_data "tdirforwhole"
  let hls_file := getk video_data "jwhlsfile"
  if truthyO url_path && truthyO tdirforwhole && truthyO hls_file then
    .ok (.str (pyStr (url_path.getD .null) ++ "/" ++ pyStr (tdirforwhole.getD .null)
      ++ "/" ++ pyStr (hls_file.getD .null)))
  else
    match getk video_data "href" with
    | some h => .ok h
    | none => .error (.keyError "href")

/-- The info dict returned by `ViuIE._real_extract`.  Stream formats
are opaque collaborator output (`_extract_m3u8_formats`). -/
structure ViuItem where
  id : String
  title : JVal
  description : Option JVal
  series : Option JVal
  episode : JVal
  episode_number : Option Int
  duration : Option Int
  formats : List JVal
  subtitles : List (String × List SubTrack)

/-- `ViuIE._real_extract`, after `_call_api` has succeeded with
`response`: index `['item'][0]`, require a `title`, derive the manifest
URL, hand it to the HLS collaborator `extractM3u8`, and collect
subtitles and metadata.  Format-list sorting is an out-of-scope
collaborator per the spec and reorders only, so it is not modelled. -/
def viuIE (video_id : String) (response : Obj) (extractM3u8 : JVal → List JVal) :
    Except PyErr ViuItem := do
  let itemsV ← match getk response "item" with
    | some v => .ok v
    | none => .error (.keyError "item")
  let items ← match itemsV with
    | .list xs => .ok xs
    | _ => .error .typeError
  let video_data ← match items.head? with
    | some v => .ok v
    | none => .error .indexError
  let vd ← match video_data with
    | .dict o => .ok o
    | _ => .error .typeError
  let title ← match getk vd "title" with
    | some t => .ok t
    | none => .error (.keyError "title")
  let m3u8_url ← m3u8_url_of vd
  let formats := extractM3u8 m3u8_url
  let subtitles := extractSubtitles vd
  .ok
    { id := video_id
      title := title
      description := getk vd "description"
      series := getk vd "moviealbumshowname"
      episode := title
      episode_number := int_or_noneO (getk vd "episodeno")
      duration := int_or_noneO (getk vd "duration")
      formats := formats
      subtitles := subtitles }

/-! ### `ViuPlaylistIE._real_extract` (spec: CatalogPlaylistResolver) -/

/-- A lazy item reference as built by `url_result` for the playlist
entries: `url_result('viu:' + item_id, 'Viu', item_id)`. -/
structure ViuRef where
  url : String
  ie : String
  id : String
deriving DecidableEq, Repr

/-- The entry loop of `ViuPlaylistIE._real_extract`: each element must
be a dict (`item.get('id')`), entries with a falsy id are skipped
silently, the rest yield one reference each, in response order. -/
def viuPlaylistEntries : List JVal → Except PyErr (List ViuRef)
  | [] => .ok []
  | v :: rest => do
    let o ← match v with
      | .dict o => .ok o
      | _ => .error .attributeError
    let tail ← viuPlaylistEntries rest
    let idv := getk o "id"
    if truthyO idv then
      let item_id := pyStr (idv.getD .null)
      .ok (⟨"viu:" ++ item_id, "Viu", item_id⟩ :: tail)
    else .ok tail

/-- The playlist result of `ViuPlaylistIE._real_extract`. -/
structure ViuPlaylist where
  id : String
  title : Option JVal
  entries : List ViuRef

/-- `ViuPlaylistIE._real_extract`, after `_call_api` has succeeded with
the `container` object: iterate `container.get('item', [])` (iterating
a non-list is a `TypeError`), drop id-less entries, and wrap the
references in a playlist result. -/
def viuPlaylist (playlist_id : String) (container : Obj) :
    Except PyErr ViuPlaylist := do
  let items ← match getkD container "item" (.list []) with
    | .list xs => .ok xs
    | _ => .error .typeError
  let entries ← viuPlaylistEntries items
  .ok { id := playlist_id, title := getk container "title", entries := entries }

/-- Specification-side view of the playlist entries: exactly the dict
entries with a truthy id, one reference each, in order. -/
def specPlaylistEntries (items : List JVal) : List ViuRef :=
  items.filterMap
    (fun v =>
      match v with
      | .dict o =>
        if truthyO (getk o "id") then
          some (⟨"viu:" ++ pyStr ((getk o "id").getD .null), "Viu",
            pyStr ((getk o "id").getD .null)⟩ : ViuRef)
        else none
      | _ => none)

/-! ### `ViuOTTIE._real_extract` (spec: RegionalStoreResolver) -/

/-- The fixed country-to-area-id table `ViuOTTIE._AREA_ID`. -/
def AREA_ID : List (String × Int) :=
  [("HK", 1), ("SG", 2), ("TH", 4), ("PH", 5)]

/-- The detail-endpoint query built by `ViuOTTIE._real_extract`
(lines 229-237): a fixed three-key base; the numeric area id, looked up
by the upper-cased country code, is added only when found and truthy. -/
def ottQuery (country_code video_id : String) : List (String × JVal) :=
  let base : List (String × JVal) :=
    [("r", .str "vod/ajax-detail"), ("platform_flag_label", .str "web"),
      ("product_id", .str video_id)]
  match AREA_ID.lookup (pyUpper country_code) with
  | some a => if a != 0 then base ++ [("area_id", .int a)] else base
  | none => base

/-- First match of `re.search(r's(\d+)p', s)` over the format label,
returning the digit group: scan left to right; at each `s` take the
maximal digit run and require a following `p`. -/
def findSP : List Char → Option String
  | [] => none
  | c :: rest =>
    if c = 's' then
      let ds := rest.takeWhile Char.isDigit
      if !ds.isEmpty && (rest.drop ds.length).head? == some 'p' then
        some (String.mk ds)
      else findSP rest
    else findSP rest

/-- The series sort key `int_or_none(x.get('number', 0))`: a missing
`number` defaults to the integer `0`. -/
def seriesKey (o : Obj) : Option Int :=
  int_or_none (getkD o "number" (.int 0))

/-- Comparison of two sort keys.  A malformed `number` gives a `None`
key; `None` compares below every integer (Python 2 semantics — under
Python 3 a `None` key aborts the sort, and every claim below assumes
well-formed keys, where the two agree). -/
def keyLe (a b : Option Int) : Bool :=
  match a, b with
  | none, _ => true
  | some _, none => false
  | some x, some y => x ≤ y

/-- The sort order of `sorted(product, key=...)`. -/
def sibLe (a b : Obj) : Prop := keyLe (seriesKey a) (seriesKey b) = true

instance : DecidableRel sibLe := fun _ _ => instDecidableEqBool _ _

instance : IsTotal Obj sibLe where
  total x y := by
    unfold sibLe
    cases seriesKey x <;> cases seriesKey y <;> simp [keyLe] <;> omega

instance : IsTrans Obj sibLe where
  trans x y z := by
    unfold sibLe
    cases seriesKey x <;> cases seriesKey y <;> cases seriesKey z <;>
      simp [keyLe] <;> omega

/-- `sorted(product, key=lambda x: int_or_none(x.get('number', 0)))`.
Python's `sorted` is stable; for a total preorder every stable sort
produces the same list, so a stable insertion sort models it exactly. -/
def pySortByNumber (ps : List Obj) : List Obj :=
  List.insertionSort sibLe ps

/-- An entry of the series playlist as built by `url_result`.
Modelled from the spec: `smuggle_url`/`unsmuggle_url` (host utility
layer, outside the embedded source) thread a data dict alongside the
URL; the reference carries that dict explicitly, and resolving the
reference later passes it back as `idata`. -/
structure OTTRef where
  url : String
  smuggled : Obj
  ie : String
  id : String
  title : String

/-- The self-referential URL the playlist entries point at. -/
def ottUrl (country_code lang_code item_id : String) : String :=
  "http://www.viu.com/ott/" ++ country_code ++ "/" ++ lang_code ++ "/vod/"
    ++ item_id ++ "/"

/-- One iteration of the series-entry loop (lines 253-264): a falsy
`product_id` skips the sibling; otherwise the reference smuggles
`{'force_noplaylist': True}` and carries the stripped synopsis as its
display title. -/
def mkOTTEntry (country_code lang_code : String) (entry : Obj) :
    Except PyErr (Option OTTRef) := do
  let pid := getk entry "product_id"
  if truthyO pid then
    let item_id := pyStr (pid.getD .null)
    let syn ← pyStrip (getkD entry "synopsis" (.str ""))
    .ok (some
      { url := ottUrl country_code lang_code item_id
        smuggled := [("force_noplaylist", .bool true)]
        ie := "ViuOTT"
        id := item_id
        title := syn })
  else .ok none

/-- Specification-side view of a well-formed sibling's reference. -/
def refOfGood (country_code lang_code : String) (entry : Obj) : OTTRef :=
  { url := ottUrl country_code lang_code (pyStr ((getk entry "product_id").getD .null))
    smuggled := [("force_noplaylist", .bool true)]
    ie := "ViuOTT"
    id := pyStr ((getk entry "product_id").getD .null)
    title := (match getkD entry "synopsis" (.str "") with
      | .str s => pyStripStr s
      | _ => "") }

/-- The series-entry loop over the sorted siblings. -/
def buildOTTEntries (country_code lang_code : String) :
    List Obj → Except PyErr (List OTTRef)
  | [] => .ok []
  | e :: rest => do
    let r ← mkOTTEntry country_code lang_code e
    let tail ← buildOTTEntries country_code lang_code rest
    match r with
    | some ref => .ok (ref :: tail)
    | none => .ok tail

/-- A hashable Python dict key (subtitle names).  Python hashes `True`
together with `1` and `False` with `0`; lists and dicts are unhashable. -/
inductive PyKey where
  | nullK
  | strK (s : String)
  | intK (n : Int)
deriving DecidableEq, Repr

/-- Coerce a subtitle name to a dict key (`TypeError` when unhashable). -/
def toKey : JVal → Except PyErr PyKey
  | .null => .ok .nullK
  | .str s => .ok (.strK s)
  | .int n => .ok (.intK n)
  | .bool b => .ok (.intK (if b then 1 else 0))
  | _ => .error .typeError

/-- The subtitle loop of the single-item branch (lines 301-309): skip
entries with a falsy url, group by the `name` field, extension fixed to
`srt`. -/
def buildOTTSubs (subs : List JVal) : Except PyErr (List (PyKey × List SubTrack)) :=
  subs.foldlM
    (fun acc s => do
      let url ← jGet s "url"
      if truthyO url then
        let nm ← jGet s "name"
        let k ← toKey (nm.getD .null)
        pure (addToGroup acc k ⟨url.getD .null, "srt"⟩)
      else pure acc)
    []

/-- One stream format of the single-item branch. -/
structure OTTFormat where
  format_id : String
  url : JVal
  height : Option Int
  ext : String
  filesize : Option Int

/-- The info dict returned by the single-item branch of
`ViuOTTIE._real_extract`. -/
structure OTTItem where
  id : String
  title : String
  description : Option JVal
  series : Option JVal
  episode : String
  episode_number : Option Int
  duration : Option Int
  thumbnail : Option JVal
  formats : List OTTFormat
  subtitles : List (PyKey × List SubTrack)

/-- The single-item branch of `ViuOTTIE._real_extract` (lines 273-324):
require `ccs_product_id` (it keys the stream-info request), index
`['data']['stream']` of the stream response, build one format per
quality-labelled URL (height from the `s<digits>p` token), collect the
named subtitles, and require a `synopsis` for the title.  The
stream-info fetch itself is the transport collaborator, passed in as
its response `streamResp`; format-list sorting is an out-of-scope
collaborator per the spec and reorders only, so it is not modelled. -/
def viuOTTSingle (video_id : String) (video_data product_data streamResp : JVal) :
    Except PyErr OTTItem := do
  let _ ← jIndexStr video_data "ccs_product_id"
  let dataV ← jIndexStr streamResp "data"
  let stream_data ← jIndexStr dataV "stream"
  let stream_sizes ← jGetD stream_data "size" (.dict [])
  let urlsV ← jGetD stream_data "url" (.dict [])
  let urls ← match urlsV with
    | .dict u => .ok u
    | _ => .error .attributeError
  let formats ← urls.mapM
    (fun kv => do
      let sz ← jGet stream_sizes kv.1
      pure
        ({ format_id := kv.1
           url := kv.2
           height := ((findSP kv.1.toList).map JVal.str).bind int_or_none
           ext := "mp4"
           filesize := int_or_noneO sz } : OTTFormat))
  let subsV ← jGetD video_data "subtitle" (.list [])
  let subs ← match subsV with
    | .list xs => .ok xs
    | _ => .error .typeError
  let subtitles ← buildOTTSubs subs
  let titleV ← jIndexStr video_data "synopsis"
  let title ← pyStrip titleV
  let seriesV ← jGetD product_data "series" (.dict [])
  let seriesName ← jGet seriesV "name"
  .ok
    { id := video_id
      title := title
      description := (← jGet video_data "description")
      series := seriesName
      episode := title
      episode_number := int_or_noneO (← jGet video_data "number")
      duration := int_or_noneO (← jGet stream_data "duration")
      thumbnail := (← jGet video_data "cover_image_url")
      formats := formats
      subtitles := subtitles }

/-- A resolution result: a playlist of lazy references or a single
media item. -/
inductive OTTResult where
  | playlist (id : Option JVal) (name : Option JVal) (description : Option JVal)
      (entries : List OTTRef)
  | media (item : OTTItem)

/-- The series-expansion attempt (lines 249-270): when the series has a
truthy `product` list, sort the siblings by their `number` key, build
the suppressed references, and return the playlist; a falsy `product`
falls through (`none`). -/
def viuOTTPlaylist (country_code lang_code : String) (video_data product_data : JVal) :
    Except PyErr (Option OTTResult) := do
  let seriesV ← jGetD product_data "series" (.dict [])
  let productO ← jGet seriesV "product"
  if truthyO productO then
    let productList ← match productO.getD .null with
      | .list xs => .ok xs
      | _ => .error .typeError
    let objs ← asObjs productList
    let entries ← buildOTTEntries country_code lang_code (pySortByNumber objs)
    let sid ← jGet video_data "series_id"
    let nm ← jGet seriesV "name"
    let ds ← jGet seriesV "description"
    pure (some (.playlist sid nm ds entries))
  else pure none

/-- `ViuOTTIE._real_extract`: index `['data']` of the detail response,
require a truthy `current_product` (otherwise the expected
region-unavailability error), expand the series unless the global
`noplaylist` option or the smuggled `force_noplaylist` flag is set, and
fall through to the single-item branch otherwise. -/
def viuOTT (country_code lang_code video_id : String) (idata : Obj)
    (noplaylist : Bool) (resp streamResp : JVal) : Except PyErr OTTResult := do
  let product_data ← jIndexStr resp "data"
  let vdO ← jGet product_data "current_product"
  if !(truthyO vdO) then
    .error (.extractorError "This video is not available in your region." true)
  else
    let video_data := vdO.getD .null
    if !(noplaylist || truthyO (getk idata "force_noplaylist")) then
      match ← viuOTTPlaylist country_code lang_code video_data product_data with
      | some r => pure r
      | none => (viuOTTSingle video_id video_data product_data streamResp).map .media
    else (viuOTTSingle video_id video_data product_data streamResp).map .media

/-- Does a resolution outcome expand into a playlist? -/
def isPlaylistResult : Except PyErr OTTResult → Bool
  | .ok (.playlist _ _ _ _) => true
  | _ => false

/-! ### `ViuTVIE._real_extract` (spec: BroadcasterResolver) -/

/-- The fixed language-name-to-code table `ViuTVIE._SUBTITLE_LANG`. -/
def SUBTITLE_LANG : List (String × String) :=
  [("chinese", "TRD"), ("english", "GBR"), ("german", "DEU"), ("spanish", "ESP"),
    ("french", "FRA"), ("italian", "ITA"), ("japanese", "JAP")]

/-- Modelled from the spec: `determine_ext` (host utility layer,
outside the embedded source) — container-type detection by the
extension after the last dot of the URL path, used only to dispatch
`.m3u8` to HLS and `.mpd` to DASH extraction. -/
def determine_ext (url : String) : String :=
  let base := (splitOnChar '?' url.toList).headD url.toList
  let segs := splitOnChar '.' base
  if segs.length ≤ 1 then "unknown_video"
  else String.mk ((segs.getLast?).getD [])

/-- The manifest-format dispatch of `ViuTVIE._real_extract`
(lines 423-431): HLS for `.m3u8`, DASH for `.mpd`, nothing otherwise.
The two extraction collaborators are out of scope and passed in. -/
def tvFormats (extractM3u8 extractMpd : String → List JVal) (manifest_url : String) :
    List JVal :=
  let ext := determine_ext manifest_url
  if ext = "m3u8" then extractM3u8 manifest_url
  else if ext = "mpd" then extractMpd manifest_url
  else []

/-- The `tags` coercion of `ViuTVIE._real_extract` (lines 452-459): a
non-list becomes `None`; a list is rebuilt from the truthy `name`
fields of its elements — but calling `.get('name')` on a non-dict
element raises `AttributeError`, which the surrounding
`except TypeError` does NOT catch, so a list containing a non-dict
element crashes the extraction. -/
def coerceTags (tags : Option JVal) : Except PyErr (Option (List JVal)) :=
  match tags with
  | some (.list xs) =>
    if xs.all (fun v => match v with | .dict _ => true | _ => false) then
      .ok (some (xs.filterMap
        (fun v =>
          match v with
          | .dict o => if truthyO (getk o "name") then getk o "name" else none
          | _ => none)))
    else .error .attributeError
  | _ => .ok none

/-- The subtitle loop of `ViuTVIE._real_extract` (lines 436-444): split
the comma-separated `productSubtitle` field, look each name up in the
fixed table (unknown names are skipped), and build the fixed
`.../subtitle/<id>/<id>-<CODE>.srt` URL. -/
def tvSubtitles (product_id : JVal) (productSubtitle : String) :
    List (String × List SubTrack) :=
  ((splitOnChar ',' productSubtitle.toList).map String.mk).foldl
    (fun acc lang =>
      match SUBTITLE_LANG.lookup (pyLower lang) with
      | some key =>
        addToGroup acc lang
          ⟨.str ("https://static.viu.tv/subtitle/" ++ pyStr product_id ++ "/"
            ++ pyStr product_id ++ "-" ++ key ++ ".srt"), "srt"⟩
      | none => acc)
    []

/-- The info dict returned by the episode branch of
`ViuTVIE._real_extract`. -/
structure TVItem where
  id : JVal
  title : Option JVal
  formats : List JVal
  description : Option JVal
  series : Option JVal
  episode : Option JVal
  episode_number : Option Int
  duration : Option Int
  thumbnail : Option JVal
  programme_slug : Option JVal
  slug : Option JVal
  tags : Option (List JVal)
  subtitles : List (String × List SubTrack)

/-- The episode branch of `ViuTVIE._real_extract` from the VOD-URL
response onward (lines 416-477): take the first asset as the manifest
URL (an expected error when absent or falsy), dispatch format
extraction by container type, fail with the expected DRM error when no
formats came back and a truthy `drmToken` was present, then build the
subtitles, title, tags and metadata.  `program_title` is the already
computed programme title; format-list sorting is an out-of-scope
collaborator per the spec and reorders only, so it is not modelled. -/
def viuTVEpisode (program_title : Option JVal) (product_data ep_data : Obj)
    (product_id : JVal) (get_vod_data : Obj)
    (extractM3u8 extractMpd : String → List JVal) : Except PyErr TVItem := do
  let assets ← match getkD get_vod_data "asset" (.list []) with
    | .list xs => .ok xs
    | _ => .error .typeError
  let manifestO := assets.head?
  let drm := getk get_vod_data "drmToken"
  if !(truthyO manifestO) then
    .error (.extractorError "Cannot get stream info" true)
  else
    let manifest_url ← match manifestO.getD .null with
      | .str s => .ok s
      | _ => .error .typeError
    let formats := tvFormats extractM3u8 extractMpd manifest_url
    if formats.isEmpty && truthyO drm then
      .error (.extractorError "This video is DRM protected." true)
    else
      let productSubtitle ← match getkD ep_data "productSubtitle" (.str "") with
        | .str s => .ok s
        | _ => .error .attributeError
      let subtitles := tvSubtitles product_id productSubtitle
      let video_meta ← match getkD ep_data "videoMeta" (.dict []) with
        | .dict o => .ok o
        | _ => .error .attributeError
      let title := pyOr (getk video_meta "title")
        (pyOr (getk ep_data "episodeNameU3") (getk ep_data "ga_title"))
      let tags ← coerceTags (getk video_meta "tags")
      let descMeta ← match getkD ep_data "videoMeta" (.dict []) with
        | .dict o => .ok o
        | _ => .error .attributeError
      .ok
        { id := product_id
          title := title
          formats := formats
          description := getk descMeta "program_synopsis"
          series := program_title
          episode := title
          episode_number := int_or_noneO (getk ep_data "episodeNum")
          duration := int_or_noneO (getk ep_data "totalDurationSec")
          thumbnail := getk ep_data "avatar"
          programme_slug := getk product_data "slug"
          slug := getk ep_data "slug"
          tags := tags
          subtitles := subtitles }

/-! ## Claim theorems -/

/-- C5: for every envelope payload carrying a vendor message, the API
call helper fails with the expected `ExtractorError` (the spec's
`ApiError`) carrying the vendor's message verbatim exactly when the
`status` field differs from `"success"`, and returns the unwrapped
payload unchanged otherwise. -/
theorem call_api_raises_iff_status (ieName : String) (response : Obj)
    (hmsg : (getk response "message").isSome = true) :
    (isStatusSuccess (getk response "status") = true →
      call_api ieName response = .ok response) ∧
    (isStatusSuccess (getk response "status") = false →
      ∃ m, getk response "message" = some m ∧
        call_api ieName response =
          .error (.extractorError (ieName ++ " said: " ++ pyStr m) true)) := by
  constructor
  · intro h
    simp [call_api, h]
  · intro h
    match hm : getk response "message" with
    | some m => exact ⟨m, rfl, by simp [call_api, h, hm]⟩
    | none => rw [hm] at hmsg; simp at hmsg

theorem call_api_raises_iff_status_witness :
    ((getk [("status", JVal.str "fail"), ("message", JVal.str "oops")] "message").isSome
      = true) ∧
    ((isStatusSuccess (getk [("status", JVal.str "fail"), ("message", JVal.str "oops")]
      "status") = true →
      call_api "Viu" [("status", JVal.str "fail"), ("message", JVal.str "oops")] =
        .ok [("status", JVal.str "fail"), ("message", JVal.str "oops")]) ∧
    (isStatusSuccess (getk [("status", JVal.str "fail"), ("message", JVal.str "oops")]
      "status") = false →
      ∃ m, getk [("status", JVal.str "fail"), ("message", JVal.str "oops")] "message"
          = some m ∧
        call_api "Viu" [("status", JVal.str "fail"), ("message", JVal.str "oops")] =
          .error (.extractorError ("Viu" ++ " said: " ++ pyStr m) true))) :=
  ⟨rfl, call_api_raises_iff_status "Viu" _ rfl⟩

/-- C2: when the base path (`urlpathd` falling back to `urlpath`), the
`tdirforwhole` directory and the `jwhlsfile` filename are all present
(truthy), the manifest URL is their `/`-joined concatenation in that
order; when any of the three is missing, it is the raw `href` field
exactly. -/
theorem manifest_url_derivation (vd : Obj) :
    (∀ up td hf : JVal,
      pyOr (getk vd "urlpathd") (getk vd "urlpath") = some up → up.truthy = true →
      getk vd "tdirforwhole" = some td → td.truthy = true →
      getk vd "jwhlsfile" = some hf → hf.truthy = true →
      m3u8_url_of vd =
        .ok (.str (pyStr up ++ "/" ++ pyStr td ++ "/" ++ pyStr hf))) ∧
    ((pyOr (getk vd "urlpathd") (getk vd "urlpath") = none ∨
      getk vd "tdirforwhole" = none ∨ getk vd "jwhlsfile" = none) →
      ∀ h, getk vd "href" = some h → m3u8_url_of vd = .ok h) := by
  constructor
  · intro up td hf h1 h2 h3 h4 h5 h6
    simp [m3u8_url_of, h1, h3, h5, truthyO, h2, h4, h6]
  · rintro (h | h | h) hv hh <;>
      simp [m3u8_url_of, h, truthyO, hh]

theorem manifest_url_derivation_witness :
    pyOr (getk [("urlpath", JVal.str "http://p"), ("tdirforwhole", JVal.str "d"),
        ("jwhlsfile", JVal.str "f.m3u8")] "urlpathd")
      (getk [("urlpath", JVal.str "http://p"), ("tdirforwhole", JVal.str "d"),
        ("jwhlsfile", JVal.str "f.m3u8")] "urlpath") = some (JVal.str "http://p") ∧
    m3u8_url_of [("urlpath", JVal.str "http://p"), ("tdirforwhole", JVal.str "d"),
        ("jwhlsfile", JVal.str "f.m3u8")] =
      .ok (.str (pyStr (JVal.str "http://p") ++ "/" ++ pyStr (JVal.str "d") ++ "/"
        ++ pyStr (JVal.str "f.m3u8"))) :=
  ⟨rfl, (manifest_url_derivation _).1 _ _ _ rfl rfl rfl rfl rfl rfl⟩

/-- C8: the detail query carries `area_id` exactly as given by the
fixed table HK=1, SG=2, TH=4, PH=5, keyed by the upper-cased country
code, and for a country outside the table (such as `kr`) the parameter
is omitted entirely while the query is still built. -/
theorem area_id_table (country_code video_id : String) :
    AREA_ID = [("HK", 1), ("SG", 2), ("TH", 4), ("PH", 5)] ∧
    (ottQuery country_code video_id).lookup "area_id" =
      (AREA_ID.lookup (pyUpper country_code)).map JVal.int ∧
    (ottQuery "kr" video_id).lookup "area_id" = none ∧
    (ottQuery "kr" video_id).lookup "product_id" = some (.str video_id) := by
  refine ⟨rfl, ?_, ?_, ?_⟩
  · unfold ottQuery
    match h : AREA_ID.lookup (pyUpper country_code) with
    | none => simp [List.lookup]
    | some a =>
      have ha : a = 1 ∨ a = 2 ∨ a = 4 ∨ a = 5 := by
        simp only [AREA_ID, List.lookup] at h
        repeat' split at h
        all_goals simp_all
      have hz : (a != 0) = true := by rcases ha with h | h | h | h <;> simp [h]
      simp [hz, List.lookup]
  · unfold ottQuery
    have h : AREA_ID.lookup (pyUpper "kr") = none := rfl
    rw [h]
    simp [List.lookup]
  · unfold ottQuery
    have h : AREA_ID.lookup (pyUpper "kr") = none := rfl
    rw [h]
    simp [List.lookup]

/-- C6 (code bug): the tags coercion of BroadcasterResolver is meant to
fail soft, but a `tags` list containing a non-dict element raises an
uncaught `AttributeError` (`.get` on a non-dict; the guarding
`except TypeError:` clause catches the wrong exception class), while
well-formed lists and non-list shapes behave as the spec says. -/
theorem tags_malformed_list_crashes :
    coerceTags (some (.list [.str "drama"])) = .error .attributeError ∧
    coerceTags (some (.list [.dict [("name", .str "drama")],
      .dict [("name", .str "comedy")], .dict []])) =
      .ok (some [.str "drama", .str "comedy"]) ∧
    coerceTags (some (.str "drama")) = .ok none ∧
    coerceTags none = .ok none :=
  ⟨rfl, rfl, rfl, rfl⟩

/-- Unfold `subsAt` over a cons cell. -/
theorem subsAt_cons (k : String) (ts : List SubTrack)
    (rest : List (String × List SubTrack)) (lang : String) :
    subsAt ((k, ts) :: rest) lang = if k = lang then ts else subsAt rest lang := by
  by_cases h : k = lang
  · simp [subsAt, List.find?_cons_of_pos, h]
  · have hb : (((k, ts) : String × List SubTrack).1 == lang) = false := by
      simp [h]
    simp [subsAt, List.find?_cons_of_neg, hb, h]

/-- Appending to a language group appends to that language's track
list and leaves every other language unchanged. -/
theorem subsAt_addToGroup (acc : List (String × List SubTrack)) (l lang : String)
    (t : SubTrack) :
    subsAt (addToGroup acc l t) lang =
      if l = lang then subsAt acc lang ++ [t] else subsAt acc lang := by
  have hnil : subsAt [] lang = [] := rfl
  induction acc with
  | nil =>
    by_cases h : l = lang <;> simp [addToGroup, subsAt_cons, h, hnil]
  | cons p rest ih =>
    obtain ⟨k, ts⟩ := p
    by_cases hk : k = l
    · subst hk
      have hstep : addToGroup ((k, ts) :: rest) k t = (k, ts ++ [t]) :: rest := by
        simp [addToGroup]
      rw [hstep, subsAt_cons, subsAt_cons]
      by_cases hl : k = lang <;> simp [hl]
    · have hb : (k == l) = false := by simp [hk]
      have hstep : addToGroup ((k, ts) :: rest) l t = (k, ts) :: addToGroup rest l t := by
        simp [addToGroup, hb]
      rw [hstep, subsAt_cons, subsAt_cons]
      by_cases hl : k = lang
      · have hll : ¬ l = lang := fun hc => hk (hl.trans hc.symm ▸ rfl)
        simp [hl, hll]
      · simp [hl, ih]

/-- The subtitle loop, started from any accumulator, extends each
language's group by the matching fields in encounter order. -/
theorem subsAt_foldl (vd : Obj) (acc : List (String × List SubTrack)) (lang : String) :
    subsAt (vd.foldl subStep acc) lang = subsAt acc lang ++ subsOf vd lang := by
  induction vd generalizing acc with
  | nil => simp [subsOf]
  | cons kv rest ih =>
    cases h : subtitleKeyMatch kv.1 with
    | none =>
      simp [List.foldl_cons, subStep, h, ih, subsOf, List.filterMap_cons]
    | some le =>
      simp only [List.foldl_cons, subStep, h, ih, subsOf, List.filterMap_cons]
      rw [subsAt_addToGroup]
      by_cases hl : le.1 = lang <;> simp [hl]

/-- C4: the subtitle mapping collects, for every language, exactly the
response fields whose keys match the (start-anchored) pattern
`subtitle_<lang>_<ext>` with `<ext>` `vtt` or `srt`, in encounter
order; in particular `subtitle_en_srt=A, subtitle_en_vtt=B,
subtitle_fr_srt=C` yields `en = [A srt, B vtt]` and `fr = [C srt]`. -/
theorem subtitle_grouping :
    (∀ (video_data : Obj) (lang : String),
      subsAt (extractSubtitles video_data) lang = subsOf video_data lang) ∧
    (∀ A B C : JVal,
      extractSubtitles [("subtitle_en_srt", A), ("subtitle_en_vtt", B),
          ("subtitle_fr_srt", C)] =
        [("en", [⟨A, "srt"⟩, ⟨B, "vtt"⟩]), ("fr", [⟨C, "srt"⟩])]) := by
  constructor
  · intro vd lang
    have h := subsAt_foldl vd [] lang
    have h0 : subsAt [] lang = [] := rfl
    rw [h0] at h
    simpa [extractSubtitles] using h
  · intro A B C
    have e1 : subtitleKeyMatch "subtitle_en_srt" = some ("en", "srt") := by decide
    have e2 : subtitleKeyMatch "subtitle_en_vtt" = some ("en", "vtt") := by decide
    have e3 : subtitleKeyMatch "subtitle_fr_srt" = some ("fr", "srt") := by decide
    simp [extractSubtitles, subStep, e1, e2, e3, addToGroup]

/-- The playlist-entry loop succeeds on dict-shaped entries and keeps
exactly the truthy-id ones, in order. -/
theorem viuPlaylistEntries_ok (items : List JVal)
    (h : items.all (fun v => match v with | .dict _ => true | _ => false) = true) :
    viuPlaylistEntries items = .ok (specPlaylistEntries items) := by
  induction items with
  | nil => rfl
  | cons v rest ih =>
    simp only [List.all_cons, Bool.and_eq_true] at h
    obtain ⟨hv, hrest⟩ := h
    match v, hv with
    | .dict o, _ =>
      rw [specPlaylistEntries, List.filterMap_cons]
      cases ht : truthyO (getk o "id") <;>
        simp [viuPlaylistEntries, ih hrest, ht, specPlaylistEntries, Bind.bind,
          Except.bind]

/-- C7: for a playlist response whose entries are objects, exactly the
entries lacking a (truthy) id are dropped, silently; each remaining
entry yields one `viu:<id>` reference, in response order — in
particular five entries of which two lack an id produce exactly three
references, with no error. -/
theorem playlist_skips_idless (playlist_id : String) (container : Obj)
    (items : List JVal)
    (hitems : getkD container "item" (.list []) = .list items)
    (hdicts : items.all (fun v => match v with | .dict _ => true | _ => false) = true) :
    viuPlaylist playlist_id container =
      .ok ⟨playlist_id, getk container "title", specPlaylistEntries items⟩ ∧
    viuPlaylistEntries
      [.dict [("id", .str "11")], .dict [("title", .str "no id")],
        .dict [("id", .str "22")], .dict [("id", .str "")],
        .dict [("id", .str "33")]] =
      .ok [⟨"viu:11", "Viu", "11"⟩, ⟨"viu:22", "Viu", "22"⟩,
        ⟨"viu:33", "Viu", "33"⟩] := by
  constructor
  · rw [viuPlaylist, hitems]
    simp [viuPlaylistEntries_ok items hdicts, Bind.bind, Except.bind]
  · rfl

theorem playlist_skips_idless_witness :
    (getkD [("item", JVal.list [JVal.dict [("id", JVal.int 7)], JVal.str "bad"])]
        "item" (.list []) =
      .list [JVal.dict [("id", JVal.int 7)], JVal.str "bad"]) ∧
    viuPlaylist "22461380" [("item", JVal.list [JVal.dict [("id", JVal.int 7)]])] =
      .ok ⟨"22461380", none, specPlaylistEntries [JVal.dict [("id", JVal.int 7)]]⟩ :=
  ⟨rfl, (playlist_skips_idless "22461380"
    [("item", JVal.list [JVal.dict [("id", JVal.int 7)]])]
    [JVal.dict [("id", JVal.int 7)]] rfl rfl).1⟩

/-- The manifest URL resolves whenever the structured fields are all
truthy or the raw `href` is present. -/
theorem m3u8_url_of_isOk (vd : Obj)
    (h : structCond vd = true ∨ (getk vd "href").isSome = true) :
    ∃ u, m3u8_url_of vd = .ok u := by
  cases hv : m3u8_url_of vd with
  | ok u => exact ⟨u, rfl⟩
  | error e =>
    exfalso
    unfold structCond at h
    simp only [m3u8_url_of] at hv
    rcases h with h | h
    · rw [h] at hv
      simp at hv
    · obtain ⟨u, hu⟩ := Option.isSome_iff_exists.mp h
      cases hc : (truthyO (pyOr (getk vd "urlpathd") (getk vd "urlpath")) &&
          truthyO (getk vd "tdirforwhole") && truthyO (getk vd "jwhlsfile"))
      · rw [hc, hu] at hv
        simp at hv
      · rw [hc] at hv
        simp at hv

/-- C10 (implicit): single-item resolution is total exactly under the
payload precondition — a non-empty `item` array whose first element is
an object carrying `title` and, when the structured manifest fields are
not all available, `href`; outside that precondition it fails with an
unhandled `KeyError`/`IndexError` (not an expected extractor error). -/
theorem item_payload_precondition (video_id : String) (response : Obj)
    (ex : JVal → List JVal) :
    (∀ vd rest, getk response "item" = some (.list (JVal.dict vd :: rest)) →
      (getk vd "title").isSome = true →
      (structCond vd = true ∨ (getk vd "href").isSome = true) →
      ∃ item, viuIE video_id response ex = .ok item) ∧
    (getk response "item" = none →
      viuIE video_id response ex = .error (.keyError "item")) ∧
    (getk response "item" = some (.list []) →
      viuIE video_id response ex = .error .indexError) ∧
    (∀ vd rest, getk response "item" = some (.list (JVal.dict vd :: rest)) →
      getk vd "title" = none →
      viuIE video_id response ex = .error (.keyError "title")) ∧
    (∀ vd rest, getk response "item" = some (.list (JVal.dict vd :: rest)) →
      (getk vd "title").isSome = true →
      structCond vd = false → getk vd "href" = none →
      viuIE video_id response ex = .error (.keyError "href")) := by
  refine ⟨?_, ?_, ?_, ?_, ?_⟩
  · intro vd rest hitem htitle hcond
    obtain ⟨t, ht⟩ := Option.isSome_iff_exists.mp htitle
    obtain ⟨u, hu⟩ := m3u8_url_of_isOk vd hcond
    cases hv : viuIE video_id response ex with
    | ok item => exact ⟨item, rfl⟩
    | error e =>
      exfalso
      rw [viuIE] at hv
      simp [hitem, ht, hu, Bind.bind, Except.bind] at hv
  · intro h
    simp [viuIE, h, Bind.bind, Except.bind]
  · intro h
    simp [viuIE, h, Bind.bind, Except.bind]
  · intro vd rest hitem htitle
    simp [viuIE, hitem, htitle, Bind.bind, Except.bind]
  · intro vd rest hitem htitle hcond hhref
    obtain ⟨t, ht⟩ := Option.isSome_iff_exists.mp htitle
    have hm : m3u8_url_of vd = .error (.keyError "href") := by
      unfold structCond at hcond
      simp [m3u8_url_of, hcond, hhref]
    simp [viuIE, hitem, ht, hm, Bind.bind, Except.bind]

theorem item_payload_precondition_witness :
    (getk [("item", JVal.list [JVal.dict [("title", JVal.str "Ep 1"),
        ("href", JVal.str "http://h/x.m3u8")]])] "item" =
      some (.list (JVal.dict [("title", JVal.str "Ep 1"),
        ("href", JVal.str "http://h/x.m3u8")] :: []))) ∧
    (∃ item, viuIE "1116705532"
      [("item", JVal.list [JVal.dict [("title", JVal.str "Ep 1"),
        ("href", JVal.str "http://h/x.m3u8")]])] (fun _ => []) = .ok item) :=
  ⟨rfl, (item_payload_precondition "1116705532" _ (fun _ => [])).1
    [("title", JVal.str "Ep 1"), ("href", JVal.str "http://h/x.m3u8")] [] rfl rfl
    (Or.inr rfl)⟩

/-- Truthiness of a present string field. -/
theorem truthyO_some_str (s : String) : truthyO (some (JVal.str s)) = !s.isEmpty := rfl

/-- C3: in single-episode resolution, when manifest-format extraction
yields an empty list, a truthy DRM token makes resolution fail with the
expected DRM error, while an empty or absent token lets a media item
with empty formats through successfully (given a well-formed episode
record for the remaining metadata steps). -/
theorem drm_policy (program_title : Option JVal) (product_data ep_data : Obj)
    (product_id : JVal) (get_vod_data : Obj) (ex8 exD : String → List JVal)
    (rest : List JVal) (murl : String)
    (hasset : getkD get_vod_data "asset" (.list []) = .list (JVal.str murl :: rest))
    (hm : murl.isEmpty = false)
    (hempty : tvFormats ex8 exD murl = []) :
    (truthyO (getk get_vod_data "drmToken") = true →
      viuTVEpisode program_title product_data ep_data product_id get_vod_data ex8 exD
        = .error (.extractorError "This video is DRM protected." true)) ∧
    (truthyO (getk get_vod_data "drmToken") = false →
      ∀ ps vm tg, getkD ep_data "productSubtitle" (.str "") = .str ps →
        getkD ep_data "videoMeta" (.dict []) = .dict vm →
        coerceTags (getk vm "tags") = .ok tg →
        ∃ item,
          viuTVEpisode program_title product_data ep_data product_id get_vod_data
            ex8 exD = .ok item ∧ item.formats = []) := by
  constructor
  · intro hdrm
    unfold viuTVEpisode
    simp [hasset, truthyO_some_str, hm, hempty, hdrm, Bind.bind, Except.bind]
  · intro hdrm ps vm tg hps hvm htg
    cases hv : viuTVEpisode program_title product_data ep_data product_id
        get_vod_data ex8 exD with
    | ok item =>
      refine ⟨item, rfl, ?_⟩
      unfold viuTVEpisode at hv
      simp [hasset, truthyO_some_str, hm, hempty, hdrm, hps, hvm, htg,
        Bind.bind, Except.bind] at hv
      rw [← hv]
    | error e =>
      exfalso
      unfold viuTVEpisode at hv
      simp [hasset, truthyO_some_str, hm, hempty, hdrm, hps, hvm, htg,
        Bind.bind, Except.bind] at hv

theorem drm_policy_witness :
    (getkD [("asset", JVal.list [JVal.str "http://cdn/a.mpd"]),
        ("drmToken", JVal.str "tok")] "asset" (.list []) =
      .list (JVal.str "http://cdn/a.mpd" :: [])) ∧
    (truthyO (getk [("asset", JVal.list [JVal.str "http://cdn/a.mpd"]),
        ("drmToken", JVal.str "tok")] "drmToken") = true →
      viuTVEpisode none [] [] (JVal.str "202002281024764")
        [("asset", JVal.list [JVal.str "http://cdn/a.mpd"]),
          ("drmToken", JVal.str "tok")] (fun _ => []) (fun _ => [])
        = .error (.extractorError "This video is DRM protected." true)) :=
  ⟨rfl, (drm_policy none [] [] (JVal.str "202002281024764")
    [("asset", JVal.list [JVal.str "http://cdn/a.mpd"]), ("drmToken", JVal.str "tok")]
    (fun _ => []) (fun _ => []) [] "http://cdn/a.mpd" rfl rfl rfl).1⟩

/-- Truthiness of a present dict field. -/
theorem truthyO_some_dict (o : Obj) : truthyO (some (JVal.dict o)) = !o.isEmpty := rfl

/-- Truthiness of a present list field. -/
theorem truthyO_some_list (xs : List JVal) :
    truthyO (some (JVal.list xs)) = !xs.isEmpty := rfl

/-- A well-formed series sibling: a truthy `product_id` and a
string-or-absent `synopsis` (so that building its reference cannot
crash). -/
def goodObj (o : Obj) : Bool :=
  truthyO (getk o "product_id") &&
    (match getkD o "synopsis" (.str "") with | .str _ => true | _ => false)

/-- On a well-formed sibling the entry constructor yields exactly the
specification-side reference. -/
theorem mkOTTEntry_good (cc lc : String) (o : Obj) (h : goodObj o = true) :
    mkOTTEntry cc lc o = .ok (some (refOfGood cc lc o)) := by
  unfold goodObj at h
  rw [Bool.and_eq_true] at h
  obtain ⟨hpid, hsyn⟩ := h
  unfold mkOTTEntry refOfGood
  cases hs : getkD o "synopsis" (.str "") with
  | str s => simp [hpid, hs, pyStrip, Bind.bind, Except.bind]
  | _ => rw [hs] at hsyn; cases hsyn

/-- Over well-formed siblings the entry loop never errors and keeps
every sibling, in order. -/
theorem buildOTTEntries_good (cc lc : String) (objs : List Obj)
    (h : ∀ o ∈ objs, goodObj o = true) :
    buildOTTEntries cc lc objs = .ok (objs.map (refOfGood cc lc)) := by
  induction objs with
  | nil => rfl
  | cons o rest ih =>
    have ho := h o (List.mem_cons_self o rest)
    have hrest : ∀ x ∈ rest, goodObj x = true := fun x hx =>
      h x (List.mem_cons_of_mem o hx)
    simp [buildOTTEntries, mkOTTEntry_good cc lc o ho, ih hrest,
      Bind.bind, Except.bind]

/-- A successful dict coercion exposes the input as a mapped dict list. -/
theorem asObjs_shape (items : List JVal) (objs : List Obj)
    (h : asObjs items = .ok objs) : items = objs.map JVal.dict := by
  induction items generalizing objs with
  | nil => cases h; rfl
  | cons v rest ih =>
    cases v with
    | dict o =>
      cases hr : asObjs rest with
      | ok os =>
        rw [asObjs, hr] at h
        cases h
        simp [ih os hr]
      | error e => rw [asObjs, hr] at h; cases h
    | null => cases h
    | bool b => cases h
    | int n => cases h
    | str s => cases h
    | list xs => cases h

/-- With the suppress flag set in the smuggled data, resolution never
produces a playlist, whatever the responses contain: the series branch
is skipped and the single-item branch yields a media item or an
error. -/
theorem ott_suppressed_not_playlist (cc lc vid : String) (idata : Obj) (np : Bool)
    (resp sresp : JVal)
    (h : truthyO (getk idata "force_noplaylist") = true) :
    isPlaylistResult (viuOTT cc lc vid idata np resp sresp) = false := by
  unfold viuOTT
  cases hd : jIndexStr resp "data" with
  | error e => simp [isPlaylistResult, Bind.bind, Except.bind, hd]
  | ok pd =>
    cases hg : jGet pd "current_product" with
    | error e => simp [isPlaylistResult, Bind.bind, Except.bind, hd, hg]
    | ok vdO =>
      cases ht : truthyO vdO with
      | false => simp [isPlaylistResult, Bind.bind, Except.bind, hd, hg, ht]
      | true =>
        simp only [Bind.bind, Except.bind, hd, hg, ht, h, Bool.or_true,
          Bool.not_true, Bool.false_eq_true, if_false, if_true]
        cases viuOTTSingle vid (vdO.getD .null) pd sresp <;>
          simp [isPlaylistResult, Except.map]

/-- The series-expansion path: with expansion enabled and a well-formed
series response the result is the playlist of the sorted siblings'
references. -/
theorem ottSeriesExpansion (cc lc vid : String) (idata : Obj) (sresp resp : JVal)
    (pdo vdo so : Obj) (ps : List JVal) (objs : List Obj)
    (hflag : truthyO (getk idata "force_noplaylist") = false)
    (hdata : jIndexStr resp "data" = .ok (.dict pdo))
    (hcur : getk pdo "current_product" = some (.dict vdo))
    (hvd : vdo.isEmpty = false)
    (hseries : getk pdo "series" = some (.dict so))
    (hprod : getk so "product" = some (.list ps))
    (hne : ps.isEmpty = false)
    (hobjs : asObjs ps = .ok objs)
    (hgood : ∀ o ∈ objs, goodObj o = true) :
    viuOTT cc lc vid idata false resp sresp =
      .ok (.playlist (getk vdo "series_id") (getk so "name")
        (getk so "description") ((pySortByNumber objs).map (refOfGood cc lc))) := by
  have hsorted : ∀ o ∈ pySortByNumber objs, goodObj o = true := fun o ho =>
    hgood o ((List.perm_insertionSort sibLe objs).mem_iff.mp ho)
  have hbuild := buildOTTEntries_good cc lc (pySortByNumber objs) hsorted
  unfold viuOTT viuOTTPlaylist
  simp [hdata, hcur, hseries, hprod, hobjs, hvd, hne, hflag, hbuild,
    truthyO_some_dict, truthyO_some_list, jGet, jGetD, Bind.bind, Except.bind,
    Except.map, pure, Except.pure]

/-- C1: with playlist expansion enabled, resolving a series member
yields a playlist with one entry per (well-formed) series sibling, and
every entry's smuggled data forces the suppress flag on, so that
individually resolving any entry — whatever the follow-up responses —
never expands into a playlist again: the recursion stops at depth
one. -/
theorem series_expansion_terminates (cc lc vid : String) (idata : Obj)
    (sresp resp : JVal) (pdo vdo so : Obj) (ps : List JVal) (objs : List Obj)
    (hflag : truthyO (getk idata "force_noplaylist") = false)
    (hdata : jIndexStr resp "data" = .ok (.dict pdo))
    (hcur : getk pdo "current_product" = some (.dict vdo))
    (hvd : vdo.isEmpty = false)
    (hseries : getk pdo "series" = some (.dict so))
    (hprod : getk so "product" = some (.list ps))
    (hne : ps.isEmpty = false)
    (hobjs : asObjs ps = .ok objs)
    (hgood : ∀ o ∈ objs, goodObj o = true) :
    ∃ entries,
      viuOTT cc lc vid idata false resp sresp =
        .ok (.playlist (getk vdo "series_id") (getk so "name")
          (getk so "description") entries) ∧
      entries.length = ps.length ∧
      ∀ e ∈ entries,
        getk e.smuggled "force_noplaylist" = some (.bool true) ∧
        ∀ (cc2 lc2 vid2 : String) (np2 : Bool) (resp2 sresp2 : JVal),
          isPlaylistResult (viuOTT cc2 lc2 vid2 e.smuggled np2 resp2 sresp2)
            = false := by
  refine ⟨_, ottSeriesExpansion cc lc vid idata sresp resp pdo vdo so ps objs
    hflag hdata hcur hvd hseries hprod hne hobjs hgood, ?_, ?_⟩
  · have h1 : (pySortByNumber objs).length = objs.length :=
      (List.perm_insertionSort sibLe objs).length_eq
    have h2 : ps.length = objs.length := by
      rw [asObjs_shape ps objs hobjs, List.length_map]
    simp [List.length_map, h1, h2]
  · intro e he
    simp only [List.mem_map] at he
    obtain ⟨o, _, heq⟩ := he
    constructor
    · rw [← heq]; rfl
    · intro cc2 lc2 vid2 np2 resp2 sresp2
      apply ott_suppressed_not_playlist
      rw [← heq]
      rfl

/-- C9: with playlist expansion enabled, the playlist entries are the
series siblings in non-decreasing order of the `number` sort key: the
sibling list is stably sorted by `int_or_none(x.get('number', 0))` (a
missing `number` keys as 0), then mapped to references. -/
theorem series_entries_sorted_by_number (cc lc vid : String) (idata : Obj)
    (sresp resp : JVal) (pdo vdo so : Obj) (ps : List JVal) (objs : List Obj)
    (hflag : truthyO (getk idata "force_noplaylist") = false)
    (hdata : jIndexStr resp "data" = .ok (.dict pdo))
    (hcur : getk pdo "current_product" = some (.dict vdo))
    (hvd : vdo.isEmpty = false)
    (hseries : getk pdo "series" = some (.dict so))
    (hprod : getk so "product" = some (.list ps))
    (hne : ps.isEmpty = false)
    (hobjs : asObjs ps = .ok objs)
    (hgood : ∀ o ∈ objs, goodObj o = true) :
    viuOTT cc lc vid idata false resp sresp =
      .ok (.playlist (getk vdo "series_id") (getk so "name")
        (getk so "description") ((pySortByNumber objs).map (refOfGood cc lc))) ∧
    ps = objs.map JVal.dict ∧
    (pySortByNumber objs).Perm objs ∧
    List.Pairwise sibLe (pySortByNumber objs) ∧
    (∀ a b : Obj, (seriesKey a).isSome = true → (seriesKey b).isSome = true →
      (sibLe a b ↔ (seriesKey a).getD 0 ≤ (seriesKey b).getD 0)) ∧
    (∀ o : Obj, getk o "number" = none → seriesKey o = some 0) := by
  refine ⟨ottSeriesExpansion cc lc vid idata sresp resp pdo vdo so ps objs
      hflag hdata hcur hvd hseries hprod hne hobjs hgood,
    asObjs_shape ps objs hobjs,
    List.perm_insertionSort sibLe objs,
    List.sorted_insertionSort sibLe objs, ?_, ?_⟩
  · intro a b ha hb
    obtain ⟨x, hx⟩ := Option.isSome_iff_exists.mp ha
    obtain ⟨y, hy⟩ := Option.isSome_iff_exists.mp hb
    unfold sibLe keyLe
    rw [hx, hy]
    simp
  · intro o hnum
    simp [seriesKey, getkD, hnum, int_or_none]

/-- A concrete two-sibling series response used to witness the series
claims. -/
def sampleSiblings : List JVal :=
  [.dict [("product_id", .int 2), ("number", .int 2), ("synopsis", .str " Ep 2 ")],
    .dict [("product_id", .int 1), ("number", .int 1)]]

/-- The sample siblings as dict bodies. -/
def sampleObjs : List Obj :=
  [[("product_id", .int 2), ("number", .int 2), ("synopsis", .str " Ep 2 ")],
    [("product_id", .int 1), ("number", .int 1)]]

/-- Sample `current_product` payload. -/
def sampleCurrent : Obj := [("series_id", JVal.int 3916)]

/-- Sample `series` payload. -/
def sampleSeries : Obj :=
  [("product", JVal.list sampleSiblings), ("name", JVal.str "Show"),
    ("description", JVal.str "Desc")]

/-- Sample detail payload (`response['data']`). -/
def samplePdo : Obj :=
  [("current_product", JVal.dict sampleCurrent), ("series", JVal.dict sampleSeries)]

/-- Sample detail response. -/
def sampleResp : JVal := .dict [("data", .dict samplePdo)]

theorem series_expansion_terminates_witness :
    (∀ o ∈ sampleObjs, goodObj o = true) ∧
    (∃ entries,
      viuOTT "hk" "zh-hk" "68776" [] false sampleResp .null =
        .ok (.playlist (getk sampleCurrent "series_id") (getk sampleSeries "name")
          (getk sampleSeries "description") entries) ∧
      entries.length = sampleSiblings.length ∧
      ∀ e ∈ entries,
        getk e.smuggled "force_noplaylist" = some (.bool true) ∧
        ∀ (cc2 lc2 vid2 : String) (np2 : Bool) (resp2 sresp2 : JVal),
          isPlaylistResult (viuOTT cc2 lc2 vid2 e.smuggled np2 resp2 sresp2)
            = false) :=
  ⟨by decide, series_expansion_terminates "hk" "zh-hk" "68776" [] .null sampleResp
    samplePdo sampleCurrent sampleSeries sampleSiblings sampleObjs
    rfl rfl rfl rfl rfl rfl rfl rfl (by decide)⟩

theorem series_entries_sorted_by_number_witness :
    (∀ o ∈ sampleObjs, goodObj o = true) ∧
    (viuOTT "hk" "zh-hk" "68776" [] false sampleResp .null =
      .ok (.playlist (getk sampleCurrent "series_id") (getk sampleSeries "name")
        (getk sampleSeries "description")
        ((pySortByNumber sampleObjs).map (refOfGood "hk" "zh-hk"))) ∧
    sampleSiblings = sampleObjs.map JVal.dict ∧
    (pySortByNumber sampleObjs).Perm sampleObjs ∧
    List.Pairwise sibLe (pySortByNumber sampleObjs) ∧
    (∀ a b : Obj, (seriesKey a).isSome = true → (seriesKey b).isSome = true →
      (sibLe a b ↔ (seriesKey a).getD 0 ≤ (seriesKey b).getD 0)) ∧
    (∀ o : Obj, getk o "number" = none → seriesKey o = some 0)) :=
  ⟨by decide, series_entries_sorted_by_number "hk" "zh-hk" "68776" [] .null
    sampleResp samplePdo sampleCurrent sampleSeries sampleSiblings sampleObjs
    rfl rfl rfl rfl rfl rfl rfl rfl (by decide)⟩

end Viu
